import Mathlib

/-!
Verification of `curseforge_key_extractor.py`: a single linear pipeline that
fetches a fixed byte range over HTTP, decompresses it with zlib, scans the
decompressed bytes for the marker `"cfCoreApiKey":"` and extracts the value up
to the next `"` byte.  The two external library calls (`requests.get` /
`raise_for_status` and `zlib.decompress`) are modelled abstractly through an
environment: everything else is translated line by line from the source.
-/

namespace CurseforgeKeyExtractor

/-- The fixed URL constant `J` of the source. -/
def J : String := "https://curseforge.overwolf.com/electron/linux/CurseForge-0.198.1-21.AppImage"

/-- The byte-offset constant `D` of the source. -/
def D : Nat := 82926761

/-- The byte-length constant `K` of the source. -/
def K : Nat := 84196

/-- The fixed request timeout passed to `requests.get` (`timeout=30`). -/
def requestTimeout : Nat := 30

/-- The Range header value `S = f"bytes={D}-{D+K}"` built on line 10. -/
def S : String := "bytes=" ++ toString D ++ "-" ++ toString (D + K)

/-- The marker bytes `G = b'"cfCoreApiKey":"'` (line 13). -/
def G : List Nat := [34, 99, 102, 67, 111, 114, 101, 65, 112, 105, 75, 101, 121, 34, 58, 34]

/-- Fuel-driven search loop: the least `i` with `start ≤ i < start + fuel` at
which `pat` occurs in `v` as a contiguous block (i.e. `pat` is a prefix of
`v.drop i`). -/
def findAux (v pat : List Nat) : Nat → Nat → Option Nat
  | _, 0 => none
  | i, fuel + 1 =>
    if pat.isPrefixOf (v.drop i) then some i else findAux v pat (i + 1) fuel

/-- Python `v.find(pat, start)` on byte strings: the least index `i ≥ start` at
which `pat` occurs in `v`, `none` where Python returns `-1`.  Candidate
positions run from `start` to `v.length` inclusive, which is exactly Python's
search space. -/
def bytesFindFrom (v pat : List Nat) (start : Nat) : Option Nat :=
  findAux v pat start (v.length + 1 - start)

/-- Python slice `v[a:b]` for byte strings (used with `a ≤ b`). -/
def pySlice (v : List Nat) (a b : Nat) : List Nat := (v.drop a).take (b - a)

/-- A UTF-8 continuation byte. -/
def isCont (b : Nat) : Bool := 0x80 ≤ b && b ≤ 0xBF

/-- Strict UTF-8 decoding of a byte list into code points, as performed by
CPython's `bytes.decode('utf-8')`: rejects truncated sequences, stray
continuation bytes, overlong encodings, surrogates and code points above
`0x10FFFF`. `none` models the `UnicodeDecodeError` raised on invalid input. -/
def utf8DecodeChars : List Nat → Option (List Char)
  | [] => some []
  | b1 :: t1 =>
    if b1 ≤ 0x7F then
      match utf8DecodeChars t1 with
      | some cs => some (Char.ofNat b1 :: cs)
      | none => none
    else if 0xC2 ≤ b1 && b1 ≤ 0xDF then
      match t1 with
      | b2 :: t2 =>
        if isCont b2 then
          match utf8DecodeChars t2 with
          | some cs => some (Char.ofNat ((b1 - 0xC0) * 0x40 + (b2 - 0x80)) :: cs)
          | none => none
        else none
      | [] => none
    else if 0xE0 ≤ b1 && b1 ≤ 0xEF then
      match t1 with
      | b2 :: b3 :: t3 =>
        if (if b1 == 0xE0 then 0xA0 ≤ b2 && b2 ≤ 0xBF
            else if b1 == 0xED then 0x80 ≤ b2 && b2 ≤ 0x9F
            else isCont b2) && isCont b3 then
          match utf8DecodeChars t3 with
          | some cs =>
              some (Char.ofNat ((b1 - 0xE0) * 0x1000 + (b2 - 0x80) * 0x40 + (b3 - 0x80)) :: cs)
          | none => none
        else none
      | _ => none
    else if 0xF0 ≤ b1 && b1 ≤ 0xF4 then
      match t1 with
      | b2 :: b3 :: b4 :: t4 =>
        if (if b1 == 0xF0 then 0x90 ≤ b2 && b2 ≤ 0xBF
            else if b1 == 0xF4 then 0x80 ≤ b2 && b2 ≤ 0x8F
            else isCont b2) && isCont b3 && isCont b4 then
          match utf8DecodeChars t4 with
          | some cs =>
              some (Char.ofNat
                ((b1 - 0xF0) * 0x40000 + (b2 - 0x80) * 0x1000 + (b3 - 0x80) * 0x40 + (b4 - 0x80)) :: cs)
          | none => none
        else none
      | _ => none
    else none

/-- `bs.decode('utf-8')` as a Lean function: `some` of the decoded string, or
`none` when CPython would raise `UnicodeDecodeError`. -/
def utf8Decode (bs : List Nat) : Option String :=
  match utf8DecodeChars bs with
  | some cs => some (String.mk cs)
  | none => none

/-- Outcome of one run of `E()`: the success value or the failure taxonomy of
the spec (section 7). `unclassifiedError` is the defensive catch-all of
line 19. -/
inductive Outcome where
  | success (key : String)
  | networkError
  | decompressionError
  | markerNotFound
  | unterminatedValue
  | unclassifiedError
deriving DecidableEq, Repr

/-- The three pipeline stages whose execution the claims track. -/
inductive Step where
  | fetch
  | decompress
  | scan
deriving DecidableEq, Repr

/-- What the external world does in one run.  `fetched = none` models
`requests.get`/`raise_for_status` raising a `RequestException` (DNS failure,
reset, timeout, non-2xx status); `fetched = some m` models a successful fetch
whose body is `m`.  `dec m = none` models `zlib.decompress m` raising
`zlib.error`; `dec m = some v` models it returning `v`.  The message fields
carry the texts of the external exceptions, interpolated into diagnostics. -/
structure Env where
  fetched : Option (List Nat)
  dec : List Nat → Option (List Nat)
  netErrMsg : String
  decErrMsg : String
  decodeErrMsg : String

/-- The observable trace of one run of `E()`: stdout lines, stderr lines, the
pipeline stages that were attempted, and the outcome. -/
structure RunLog where
  stdoutLines : List String
  stderrLines : List String
  steps : List Step
  outcome : Outcome

/-- Lines 13–17 of `E()`: scan the decompressed buffer `v` for the marker and
extract the value up to the next `"` byte.  Returns the stdout lines this
phase prints, the stderr lines, and the outcome.  A `UnicodeDecodeError` from
line 17 escapes the inner logic and is caught by the outer
`except Exception` of line 19, hence `unclassifiedError`. -/
def scanE (env : Env) (v : List Nat) : List String × List String × Outcome :=
  match bytesFindFrom v G 0 with
  | none => ([], ["couldnt find string \"cfCoreApiKey\":\""], Outcome.markerNotFound)
  | some n =>
    match bytesFindFrom v [34] (n + G.length) with
    | none => ([], ["no closing quote"], Outcome.unterminatedValue)
    | some p =>
      match utf8Decode (pySlice v (n + G.length) p) with
      | none => ([], ["error: " ++ env.decodeErrMsg], Outcome.unclassifiedError)
      | some q => (["api key: " ++ q], [], Outcome.success q)

/-- The two announcement lines printed on line 10 before the fetch. -/
def stdout0 : List String :=
  ["getting curseforge api key from " ++ J ++ "...",
   "requesting bytes " ++ toString D ++ "-" ++ toString (D + K) ++ "..."]

/-- Stdout after a successful fetch of body `m` (line 10). -/
def stdout1 (m : List Nat) : List String :=
  stdout0 ++ ["downloaded " ++ toString m.length ++ " bytes (compressed)"]

/-- Stdout after successful decompression to `v` (line 13). -/
def stdout2 (m v : List Nat) : List String :=
  stdout1 m ++ ["decompressed to " ++ toString v.length ++ " bytes"]

/-- The body of `E()` (lines 8–19), step by step: the two announcement prints,
the ranged fetch, the decompression attempt, then the scan phase.  Each
failure prints its diagnostic to stderr and returns `None`. -/
def runE (env : Env) : RunLog :=
  match env.fetched with
  | none =>
      ⟨stdout0, ["network error: " ++ env.netErrMsg], [Step.fetch], Outcome.networkError⟩
  | some m =>
    match env.dec m with
    | none =>
        ⟨stdout1 m, ["decompression error: " ++ env.decErrMsg],
         [Step.fetch, Step.decompress], Outcome.decompressionError⟩
    | some v =>
        ⟨stdout2 m v ++ (scanE env v).1, (scanE env v).2.1,
         [Step.fetch, Step.decompress, Step.scan], (scanE env v).2.2⟩

/-- The value `E()` returns: `some key` on the success path of line 17, `None`
on every diagnostic-then-`return` path. -/
def E (env : Env) : Option String :=
  match (runE env).outcome with
  | Outcome.success q => some q
  | _ => none

/-- Python truthiness of `E()`'s result as tested by `if C:` on line 22:
`None` and the empty string are both falsy. -/
def truthy : Option String → Bool
  | none => false
  | some s => !(s == "")

/-- The `__main__` block (lines 20–23): run `E()`, exit 0 when the result is
truthy, otherwise print `failed to extract api key` to stderr and exit 1.
Returns the final run log and the process exit code. -/
def runMain (env : Env) : RunLog × Nat :=
  if truthy (E env) then (runE env, 0)
  else ({ runE env with
          stderrLines := (runE env).stderrLines ++ ["failed to extract api key"] }, 1)

/-- ASCII bytes of a string, for building concrete test buffers. -/
def asciiBytes (s : String) : List Nat := s.data.map Char.toNat

/-! ### Concrete environments used as witnesses -/

/-- Scenario A buffer: `...{"cfCoreApiKey":"abc123XYZ"}...`. -/
def bufScenarioA : List Nat :=
  asciiBytes "...\x7b" ++ G ++ asciiBytes "abc123XYZ" ++ ([34] ++ asciiBytes "\x7d...")

/-- Fetch succeeds; decompression yields scenario A's buffer. -/
def envScenarioA : Env := ⟨some [0], fun _ => some bufScenarioA, "", "", ""⟩

/-- The fetch raises (e.g. connection reset). -/
def envNetFailA : Env := ⟨none, fun _ => none, "connection reset", "", ""⟩

/-- Same external behaviour as `envNetFailA`, different exception text. -/
def envNetFailB : Env := ⟨none, fun _ => none, "timeout", "", ""⟩

/-- Fetch succeeds, `zlib.decompress` raises. -/
def envDecFail : Env := ⟨some [1], fun _ => none, "", "incorrect header check", ""⟩

/-- Fetch and decompression succeed; the buffer has no marker. -/
def envDecOk : Env := ⟨some [1], fun _ => some [65], "", "", ""⟩

/-- Decompressed buffer is the marker immediately followed by `"`. -/
def envEmptyKey : Env := ⟨some [0], fun _ => some (G ++ [34]), "", "", ""⟩

/-- Decompressed buffer holds an invalid UTF-8 byte between the delimiters. -/
def envBadUtf8 : Env := ⟨some [0], fun _ => some (G ++ [255, 34]), "", "", "invalid start byte"⟩

/-- Decompressed buffer is exactly the marker: no byte after it at all. -/
def envNoQuote : Env := ⟨some [0], fun _ => some G, "", "", ""⟩

/-! ### Characterisation of the search loop -/

theorem findAux_eq_none_iff (v pat : List Nat) (fuel : Nat) :
    ∀ i, findAux v pat i fuel = none ↔ ∀ j, i ≤ j → j < i + fuel → ¬ pat <+: v.drop j := by
  induction fuel with
  | zero =>
    intro i
    simp only [findAux]
    constructor
    · intro _ j h1 h2
      exact absurd h2 (by omega)
    · intro _
      trivial
  | succ fuel ih =>
    intro i
    simp only [findAux]
    by_cases h : pat.isPrefixOf (v.drop i) = true
    · rw [if_pos h]
      constructor
      · intro hcontra
        exact Option.noConfusion hcontra
      · intro hall
        exact absurd ( List.isPrefixOf_iff_prefix.mp h) (hall i (Nat.le_refl i) (by omega))
    · rw [if_neg h, ih (i + 1)]
      constructor
      · intro hall j h1 h2
        rcases Nat.eq_or_lt_of_le h1 with heq | hlt
        · intro hpre
          rw [← heq] at hpre
          exact h ( List.isPrefixOf_iff_prefix.mpr hpre)
        · exact hall j hlt (by omega)
      · intro hall j h1 h2
        exact hall j (by omega) (by omega)

theorem findAux_eq_some_iff (v pat : List Nat) (fuel : Nat) :
    ∀ i n, findAux v pat i fuel = some n ↔
      i ≤ n ∧ n < i + fuel ∧ pat <+: v.drop n ∧
        ∀ j, i ≤ j → j < n → ¬ pat <+: v.drop j := by
  induction fuel with
  | zero =>
    intro i n
    simp only [findAux]
    constructor
    · intro hcontra
      exact Option.noConfusion hcontra
    · rintro ⟨h1, h2, -, -⟩
      exact absurd h2 (by omega)
  | succ fuel ih =>
    intro i n
    simp only [findAux]
    by_cases h : pat.isPrefixOf (v.drop i) = true
    · rw [if_pos h]
      constructor
      · intro hsome
        have hin : i = n := Option.some.inj hsome
        subst hin
        exact ⟨Nat.le_refl i, by omega, List.isPrefixOf_iff_prefix.mp h,
               fun j h1 h2 => absurd h2 (by omega)⟩
      · rintro ⟨h1, -, -, h4⟩
        rcases Nat.eq_or_lt_of_le h1 with heq | hlt
        · rw [heq]
        · exact absurd ( List.isPrefixOf_iff_prefix.mp h) (h4 i (Nat.le_refl i) hlt)
    · rw [if_neg h, ih (i + 1)]
      constructor
      · rintro ⟨h1, h2, h3, h4⟩
        refine ⟨by omega, by omega, h3, fun j hj1 hj2 => ?_⟩
        rcases Nat.eq_or_lt_of_le hj1 with heq | hlt
        · intro hpre
          rw [← heq] at hpre
          exact h ( List.isPrefixOf_iff_prefix.mpr hpre)
        · exact h4 j hlt hj2
      · rintro ⟨h1, h2, h3, h4⟩
        have hne : i ≠ n := by
          intro heq
          rw [← heq] at h3
          exact h ( List.isPrefixOf_iff_prefix.mpr h3)
        exact ⟨by omega, by omega, h3, fun j hj1 hj2 => h4 j (by omega) hj2⟩

/-- A nonempty occurrence fits inside the buffer. -/
theorem occurrence_bound {v pat : List Nat} {j : Nat} (hne : pat ≠ [])
    (h : pat <+: v.drop j) : j + pat.length ≤ v.length := by
  have hlen : pat.length ≤ (v.drop j).length := h.length_le
  rw [List.length_drop] at hlen
  have hpos : pat.length ≠ 0 := fun h0 => hne (List.length_eq_zero.mp h0)
  omega

theorem bytesFindFrom_eq_none_iff {pat : List Nat} (hne : pat ≠ []) (v : List Nat) (s : Nat) :
    bytesFindFrom v pat s = none ↔ ∀ j, s ≤ j → ¬ pat <+: v.drop j := by
  rw [bytesFindFrom, findAux_eq_none_iff]
  constructor
  · intro hall j hj hpre
    have hb := occurrence_bound hne hpre
    have hpos : pat.length ≠ 0 := fun h0 => hne (List.length_eq_zero.mp h0)
    exact hall j hj (by omega) hpre
  · intro hall j hj _
    exact hall j hj

theorem bytesFindFrom_eq_some_iff {pat : List Nat} (hne : pat ≠ []) (v : List Nat) (s n : Nat) :
    bytesFindFrom v pat s = some n ↔
      s ≤ n ∧ pat <+: v.drop n ∧ ∀ j, s ≤ j → j < n → ¬ pat <+: v.drop j := by
  rw [bytesFindFrom, findAux_eq_some_iff]
  constructor
  · rintro ⟨h1, -, h3, h4⟩
    exact ⟨h1, h3, h4⟩
  · rintro ⟨h1, h2, h3⟩
    have hb := occurrence_bound hne h2
    have hpos : pat.length ≠ 0 := fun h0 => hne (List.length_eq_zero.mp h0)
    exact ⟨h1, by omega, h2, h3⟩

/-- Occurrence-at-an-index formulation of substring containment. -/
theorem infix_iff_occurrence (pat v : List Nat) :
    pat <:+: v ↔ ∃ i, pat <+: v.drop i := by
  constructor
  · rintro ⟨s, t, hst⟩
    refine ⟨s.length, ?_⟩
    rw [← hst, List.append_assoc, List.drop_left]
    exact ⟨t, rfl⟩
  · rintro ⟨i, t, ht⟩
    rcases List.drop_suffix i v with ⟨s, hs⟩
    exact ⟨s, t, by rw [← hs, ← ht, List.append_assoc]⟩

/-- A single-byte pattern occurs at `j` exactly when the byte at `j` is it. -/
theorem singleton_occurrence_iff (a : Nat) (v : List Nat) (j : Nat) :
    [a] <+: v.drop j ↔ v[j]? = some a := by
  have hget : v[j]? = (v.drop j)[0]? := by
    rw [List.getElem?_drop, Nat.add_zero]
  rw [hget]
  cases hd : v.drop j with
  | nil =>
    simp
  | cons b t =>
    simp only [List.getElem?_cons_zero]
    constructor
    · rintro ⟨u, hu⟩
      rw [List.cons_append] at hu
      exact congrArg some (List.head_eq_of_cons_eq hu).symm
    · intro hb
      cases Option.some.inj hb
      exact ⟨t, rfl⟩

/-! ### Run-level helper lemmas -/

theorem E_eq_some_iff (env : Env) (q : String) :
    E env = some q ↔ (runE env).outcome = Outcome.success q := by
  rw [E]
  cases h : (runE env).outcome with
  | success k =>
    constructor
    · intro hs
      rw [Option.some.inj hs]
    · intro hk
      rw [Outcome.success.inj hk]
  | networkError => simp
  | decompressionError => simp
  | markerNotFound => simp
  | unterminatedValue => simp
  | unclassifiedError => simp

theorem E_eq_none_iff (env : Env) :
    E env = none ↔ ∀ q, (runE env).outcome ≠ Outcome.success q := by
  rw [E]
  cases h : (runE env).outcome with
  | success k =>
    constructor
    · intro hc
      exact Option.noConfusion hc
    · intro hall
      exact absurd rfl (hall k)
  | networkError => simp
  | decompressionError => simp
  | markerNotFound => simp
  | unterminatedValue => simp
  | unclassifiedError => simp

/-- On the success path the credential line is printed to stdout and nothing
goes to stderr. -/
theorem success_log (env : Env) (q : String) (h : (runE env).outcome = Outcome.success q) :
    ("api key: " ++ q) ∈ (runE env).stdoutLines ∧ (runE env).stderrLines = [] := by
  cases hf : env.fetched with
  | none =>
    simp only [runE, hf] at h
    exact Outcome.noConfusion h
  | some m =>
    cases hd : env.dec m with
    | none =>
      simp only [runE, hf, hd] at h
      exact Outcome.noConfusion h
    | some v =>
      cases hn : bytesFindFrom v G 0 with
      | none =>
        simp only [runE, hf, hd, scanE, hn] at h
        exact Outcome.noConfusion h
      | some n =>
        cases hp : bytesFindFrom v [34] (n + G.length) with
        | none =>
          simp only [runE, hf, hd, scanE, hn, hp] at h
          exact Outcome.noConfusion h
        | some p =>
          cases hu : utf8Decode (pySlice v (n + G.length) p) with
          | none =>
            simp only [runE, hf, hd, scanE, hn, hp, hu] at h
            exact Outcome.noConfusion h
          | some q2 =>
            simp only [runE, hf, hd, scanE, hn, hp, hu, Outcome.success.injEq] at h
            subst h
            constructor
            · simp [runE, hf, hd, scanE, hn, hp, hu]
            · simp [runE, hf, hd, scanE, hn, hp, hu]

/-- Every non-success outcome leaves a diagnostic on stderr. -/
theorem failure_log (env : Env) (h : ∀ q, (runE env).outcome ≠ Outcome.success q) :
    (runE env).stderrLines ≠ [] := by
  cases hf : env.fetched with
  | none => simp [runE, hf]
  | some m =>
    cases hd : env.dec m with
    | none => simp [runE, hf, hd]
    | some v =>
      cases hn : bytesFindFrom v G 0 with
      | none => simp [runE, hf, hd, scanE, hn]
      | some n =>
        cases hp : bytesFindFrom v [34] (n + G.length) with
        | none => simp [runE, hf, hd, scanE, hn, hp]
        | some p =>
          cases hu : utf8Decode (pySlice v (n + G.length) p) with
          | none => simp [runE, hf, hd, scanE, hn, hp, hu]
          | some q2 =>
            refine absurd ?_ (h q2)
            simp [runE, hf, hd, scanE, hn, hp, hu]

theorem runMain_stdout (env : Env) :
    (runMain env).1.stdoutLines = (runE env).stdoutLines := by
  rw [runMain]
  by_cases h : truthy (E env) = true
  · rw [if_pos h]
  · rw [if_neg h]

theorem runMain_of_truthy (env : Env) (h : truthy (E env) = true) :
    runMain env = (runE env, 0) := by
  rw [runMain, if_pos h]

theorem runMain_of_falsy (env : Env) (h : truthy (E env) = false) :
    runMain env =
      ({ runE env with
         stderrLines := (runE env).stderrLines ++ ["failed to extract api key"] }, 1) := by
  rw [runMain, if_neg (by simp [h])]

/-- The outcome of the scan phase does not depend on the environment's message
fields, only on the buffer. -/
theorem scanE_outcome_eq (e1 e2 : Env) (v : List Nat) :
    (scanE e1 v).2.2 = (scanE e2 v).2.2 := by
  cases hn : bytesFindFrom v G 0 with
  | none => simp [scanE, hn]
  | some n =>
    cases hp : bytesFindFrom v [34] (n + G.length) with
    | none => simp [scanE, hn, hp]
    | some p =>
      cases hu : utf8Decode (pySlice v (n + G.length) p) with
      | none => simp [scanE, hn, hp, hu]
      | some q => simp [scanE, hn, hp, hu]

/-- The first occurrence of the marker, characterised in spec vocabulary,
determines the result of `v.find(G)`. -/
theorem first_marker_find (v : List Nat) (n : Nat)
    (hocc : G <+: v.drop n) (hfirst : ∀ j < n, ¬ G <+: v.drop j) :
    bytesFindFrom v G 0 = some n := by
  rw [bytesFindFrom_eq_some_iff (by decide)]
  exact ⟨Nat.zero_le n, hocc, fun j _ hj => hfirst j hj⟩

/-- The first `"` byte at or after `s`, characterised in spec vocabulary,
determines the result of `v.find(b'"', s)`. -/
theorem first_quote_find (v : List Nat) (s p : Nat)
    (hple : s ≤ p) (hpq : v[p]? = some 34)
    (hpfirst : ∀ j < p, s ≤ j → v[j]? ≠ some 34) :
    bytesFindFrom v [34] s = some p := by
  rw [bytesFindFrom_eq_some_iff (by decide)]
  refine ⟨hple, (singleton_occurrence_iff 34 v p).mpr hpq, fun j hj1 hj2 hpre => ?_⟩
  exact hpfirst j hj2 hj1 ((singleton_occurrence_iff 34 v j).mp hpre)

/-- No `"` byte at or after `s` anywhere in the buffer: `v.find(b'"', s)`
returns `-1`. -/
theorem no_quote_find (v : List Nat) (s : Nat)
    (hnoq : ∀ j < v.length, s ≤ j → v[j]? ≠ some 34) :
    bytesFindFrom v [34] s = none := by
  rw [bytesFindFrom_eq_none_iff (by decide)]
  intro j hj hpre
  have hb := occurrence_bound (by decide) hpre
  exact hnoq j (by simpa using hb) hj ((singleton_occurrence_iff 34 v j).mp hpre)

/-! ### The claims -/

/-- C1: in Step B the fetched bytes are handed to the decompressor.  When it
succeeds the pipeline proceeds to the marker scan on the decompressed buffer;
when it fails (the fetched bytes are not a valid stream at the point
decompression is attempted, modelled by the decompressor returning `none`),
the run is classified DecompressionError, its diagnostic goes to stderr, no
credential is produced, and the scan is never reached. -/
theorem decompress_result_classification (env : Env) (m v : List Nat)
    (hm : env.fetched = some m) :
    (env.dec m = some v →
        (runE env).outcome = (scanE env v).2.2 ∧ Step.scan ∈ (runE env).steps)
    ∧ (env.dec m = none →
        (runE env).outcome = Outcome.decompressionError ∧ E env = none
        ∧ Step.scan ∉ (runE env).steps
        ∧ ("decompression error: " ++ env.decErrMsg) ∈ (runE env).stderrLines) := by
  constructor
  · intro hd
    exact ⟨by simp [runE, hm, hd], by simp [runE, hm, hd]⟩
  · intro hd
    refine ⟨by simp [runE, hm, hd], ?_, by simp [runE, hm, hd], by simp [runE, hm, hd]⟩
    rw [E_eq_none_iff]
    intro q
    simp [runE, hm, hd]

/-- C1 witness: both branches at concrete environments. -/
theorem decompress_result_classification_witness :
    ((runE envDecOk).outcome = (scanE envDecOk [65]).2.2 ∧ Step.scan ∈ (runE envDecOk).steps)
    ∧ ((runE envDecFail).outcome = Outcome.decompressionError ∧ E envDecFail = none
        ∧ Step.scan ∉ (runE envDecFail).steps
        ∧ ("decompression error: " ++ envDecFail.decErrMsg) ∈ (runE envDecFail).stderrLines) :=
  ⟨(decompress_result_classification envDecOk [1] [65] rfl).1 rfl,
   (decompress_result_classification envDecFail [1] [65] rfl).2 rfl⟩

/-- C4: a decompressed buffer not containing the marker bytes is classified
MarkerNotFoundError, its diagnostic goes to stderr and no credential is
produced. -/
theorem marker_absent_classification (env : Env) (m v : List Nat)
    (hm : env.fetched = some m) (hd : env.dec m = some v)
    (habs : ¬ G <:+: v) :
    (runE env).outcome = Outcome.markerNotFound ∧ E env = none
    ∧ "couldnt find string \"cfCoreApiKey\":\"" ∈ (runE env).stderrLines := by
  have hfind : bytesFindFrom v G 0 = none := by
    rw [bytesFindFrom_eq_none_iff (by decide)]
    intro j _ hpre
    exact habs ((infix_iff_occurrence G v).mpr ⟨j, hpre⟩)
  refine ⟨by simp [runE, hm, hd, scanE, hfind], ?_,
          by simp [runE, hm, hd, scanE, hfind]⟩
  rw [E_eq_none_iff]
  intro q
  simp [runE, hm, hd, scanE, hfind]

/-- C4 witness: the buffer `A` contains no marker. -/
theorem marker_absent_classification_witness :
    (runE envDecOk).outcome = Outcome.markerNotFound ∧ E envDecOk = none
    ∧ "couldnt find string \"cfCoreApiKey\":\"" ∈ (runE envDecOk).stderrLines :=
  marker_absent_classification envDecOk [1] [65] rfl rfl (by decide)

/-- C5: buffer whose first marker occurrence is at `n` but with no `"` byte
anywhere after the end of that occurrence: classified UnterminatedValueError,
diagnostic on stderr, no credential. -/
theorem unterminated_value_classification (env : Env) (m v : List Nat) (n : Nat)
    (hm : env.fetched = some m) (hd : env.dec m = some v)
    (hocc : G <+: v.drop n) (hfirst : ∀ j < n, ¬ G <+: v.drop j)
    (hnoq : ∀ j < v.length, n + G.length ≤ j → v[j]? ≠ some 34) :
    (runE env).outcome = Outcome.unterminatedValue ∧ E env = none
    ∧ "no closing quote" ∈ (runE env).stderrLines := by
  have hfn : bytesFindFrom v G 0 = some n := first_marker_find v n hocc hfirst
  have hfp : bytesFindFrom v [34] (n + G.length) = none := no_quote_find v _ hnoq
  refine ⟨by simp [runE, hm, hd, scanE, hfn, hfp], ?_,
          by simp [runE, hm, hd, scanE, hfn, hfp]⟩
  rw [E_eq_none_iff]
  intro q
  simp [runE, hm, hd, scanE, hfn, hfp]

/-- C5 witness: the buffer is exactly the marker, so nothing follows it. -/
theorem unterminated_value_classification_witness :
    (runE envNoQuote).outcome = Outcome.unterminatedValue ∧ E envNoQuote = none
    ∧ "no closing quote" ∈ (runE envNoQuote).stderrLines :=
  unterminated_value_classification envNoQuote [0] G 0 rfl rfl
    (by decide) (by decide) (by decide)

/-- C6: the pipeline is fail-fast in the fixed order fetch, decompress, scan:
a failed fetch leaves decompression and scanning unattempted, a failed
decompression leaves scanning unattempted, and no stage is ever attempted more
than once (no retry). -/
theorem pipeline_fail_fast_ordering (env : Env) (m : List Nat) :
    (env.fetched = none →
        (runE env).steps = [Step.fetch]
        ∧ Step.decompress ∉ (runE env).steps ∧ Step.scan ∉ (runE env).steps)
    ∧ (env.fetched = some m → env.dec m = none →
        (runE env).steps = [Step.fetch, Step.decompress] ∧ Step.scan ∉ (runE env).steps)
    ∧ (runE env).steps.count Step.fetch ≤ 1
    ∧ (runE env).steps.count Step.decompress ≤ 1
    ∧ (runE env).steps.count Step.scan ≤ 1 := by
  have hsteps : (runE env).steps = [Step.fetch]
      ∨ (runE env).steps = [Step.fetch, Step.decompress]
      ∨ (runE env).steps = [Step.fetch, Step.decompress, Step.scan] := by
    cases hf : env.fetched with
    | none => exact Or.inl (by simp [runE, hf])
    | some m2 =>
      cases hd : env.dec m2 with
      | none => exact Or.inr (Or.inl (by simp [runE, hf, hd]))
      | some v => exact Or.inr (Or.inr (by simp [runE, hf, hd]))
  refine ⟨?_, ?_, ?_, ?_, ?_⟩
  · intro hf
    refine ⟨by simp [runE, hf], by simp [runE, hf], by simp [runE, hf]⟩
  · intro hf hd
    exact ⟨by simp [runE, hf, hd], by simp [runE, hf, hd]⟩
  all_goals rcases hsteps with h | h | h <;> rw [h] <;> decide

/-- C6 witness: the two failure traces at concrete environments. -/
theorem pipeline_fail_fast_ordering_witness :
    ((runE envNetFailA).steps = [Step.fetch]
      ∧ Step.decompress ∉ (runE envNetFailA).steps ∧ Step.scan ∉ (runE envNetFailA).steps)
    ∧ ((runE envDecFail).steps = [Step.fetch, Step.decompress]
      ∧ Step.scan ∉ (runE envDecFail).steps) :=
  ⟨(pipeline_fail_fast_ordering envNetFailA [1]).1 rfl,
   (pipeline_fail_fast_ordering envDecFail [1]).2.1 rfl rfl⟩

/-- C7: the post-fetch pipeline is deterministic: two runs whose fetched bytes
(and decompressor, zlib being deterministic) coincide have the same outcome —
same credential or same failure classification — whatever the environments'
other fields are.  There is no randomness or time dependence in the model. -/
theorem pipeline_deterministic (e1 e2 : Env)
    (hdec : e1.dec = e2.dec) (hf : e1.fetched = e2.fetched) :
    (runE e1).outcome = (runE e2).outcome ∧ E e1 = E e2 := by
  have ho : (runE e1).outcome = (runE e2).outcome := by
    cases hf2 : e2.fetched with
    | none =>
      rw [hf2] at hf
      simp [runE, hf, hf2]
    | some m =>
      rw [hf2] at hf
      cases hd2 : e2.dec m with
      | none =>
        have hd1 : e1.dec m = none := by rw [hdec, hd2]
        simp [runE, hf, hf2, hd1, hd2]
      | some v =>
        have hd1 : e1.dec m = some v := by rw [hdec, hd2]
        simp only [runE, hf, hf2, hd1, hd2]
        exact scanE_outcome_eq e1 e2 v
  refine ⟨ho, ?_⟩
  simp only [E]
  rw [ho]

/-- C7 witness: two runs differing only in exception texts agree. -/
theorem pipeline_deterministic_witness :
    (runE envNetFailA).outcome = (runE envNetFailB).outcome
    ∧ E envNetFailA = E envNetFailB :=
  pipeline_deterministic envNetFailA envNetFailB rfl rfl

/-- C8: the fixed network contract: the constants are the URL, offset
82926761 and length 84196, the Range header value is
`bytes=82926761-83010957`, the timeout is 30; every run performs the fetch
stage exactly once (one GET, no retry); a fetch failure is classified
NetworkError, leaves its diagnostic on stderr, aborts the trace right there
and produces no credential. -/
theorem network_contract (env : Env) :
    J = "https://curseforge.overwolf.com/electron/linux/CurseForge-0.198.1-21.AppImage"
    ∧ D = 82926761 ∧ K = 84196
    ∧ S = "bytes=82926761-83010957"
    ∧ requestTimeout = 30
    ∧ (runE env).steps.count Step.fetch = 1
    ∧ (env.fetched = none →
        (runE env).outcome = Outcome.networkError ∧ E env = none
        ∧ (runE env).steps = [Step.fetch]
        ∧ ("network error: " ++ env.netErrMsg) ∈ (runE env).stderrLines) := by
  refine ⟨rfl, rfl, rfl, by decide, rfl, ?_, ?_⟩
  · cases hf : env.fetched with
    | none =>
      simp only [runE, hf]
      decide
    | some m =>
      cases hd : env.dec m with
      | none =>
        simp only [runE, hf, hd]
        decide
      | some v =>
        simp only [runE, hf, hd]
        decide
  · intro hf
    refine ⟨by simp [runE, hf], ?_, by simp [runE, hf], by simp [runE, hf]⟩
    rw [E_eq_none_iff]
    intro q
    simp [runE, hf]

/-- C8 witness: a failed fetch at a concrete environment. -/
theorem network_contract_witness :
    (runE envNetFailA).outcome = Outcome.networkError ∧ E envNetFailA = none
    ∧ (runE envNetFailA).steps = [Step.fetch]
    ∧ ("network error: " ++ envNetFailA.netErrMsg) ∈ (runE envNetFailA).stderrLines :=
  (network_contract envNetFailA).2.2.2.2.2.2 rfl

/-- C3: when the marker occurs (first occurrence at `n`) and a `"` byte occurs
after its end (first such byte at `p`), the extracted credential is exactly
the UTF-8 decoding of the bytes strictly between marker-end and that quote —
no trimming, no unescaping — and it is printed to stdout. -/
theorem extracted_value_exact (env : Env) (m v : List Nat) (n p : Nat) (q : String)
    (hm : env.fetched = some m) (hd : env.dec m = some v)
    (hocc : G <+: v.drop n) (hfirst : ∀ j < n, ¬ G <+: v.drop j)
    (hple : n + G.length ≤ p) (hpq : v[p]? = some 34)
    (hpfirst : ∀ j < p, n + G.length ≤ j → v[j]? ≠ some 34)
    (hq : utf8Decode (pySlice v (n + G.length) p) = some q) :
    E env = some q ∧ (runE env).outcome = Outcome.success q
    ∧ ("api key: " ++ q) ∈ (runE env).stdoutLines := by
  have hfn : bytesFindFrom v G 0 = some n := first_marker_find v n hocc hfirst
  have hfp : bytesFindFrom v [34] (n + G.length) = some p :=
    first_quote_find v _ p hple hpq hpfirst
  have ho : (runE env).outcome = Outcome.success q := by
    simp [runE, hm, hd, scanE, hfn, hfp, hq]
  exact ⟨(E_eq_some_iff env q).mpr ho, ho, (success_log env q ho).1⟩

/-- C3 witness, scenario A: the buffer `...{"cfCoreApiKey":"abc123XYZ"}...`
yields exactly `abc123XYZ`. -/
theorem extracted_value_exact_witness :
    E envScenarioA = some "abc123XYZ"
    ∧ (runE envScenarioA).outcome = Outcome.success "abc123XYZ"
    ∧ ("api key: " ++ "abc123XYZ") ∈ (runE envScenarioA).stdoutLines :=
  extracted_value_exact envScenarioA [0] bufScenarioA 4 29 "abc123XYZ"
    rfl rfl (by decide) (by decide) (by decide) (by decide) (by decide) (by decide)

/-- C9: when the first marker occurrence is immediately followed by a `"`
byte, `extract()` succeeds and returns the empty credential, printing
`api key: ` to stdout — yet `if C:` in `__main__` treats the empty string as
falsy, so the process prints the failure diagnostic to stderr and exits 1. -/
theorem empty_credential_edge (env : Env) (m v : List Nat) (n : Nat)
    (hm : env.fetched = some m) (hd : env.dec m = some v)
    (hocc : G <+: v.drop n) (hfirst : ∀ j < n, ¬ G <+: v.drop j)
    (hq : v[n + G.length]? = some 34) :
    E env = some "" ∧ ("api key: " ++ "") ∈ (runE env).stdoutLines
    ∧ (runMain env).2 = 1
    ∧ "failed to extract api key" ∈ (runMain env).1.stderrLines := by
  have hfn : bytesFindFrom v G 0 = some n := first_marker_find v n hocc hfirst
  have hfp : bytesFindFrom v [34] (n + G.length) = some (n + G.length) :=
    first_quote_find v _ _ (Nat.le_refl _) hq (fun j hj1 hj2 => absurd hj1 (by omega))
  have hdecode : utf8Decode (pySlice v (n + G.length) (n + G.length)) = some "" := by
    have hslice : pySlice v (n + G.length) (n + G.length) = [] := by
      simp [pySlice]
    rw [hslice]
    rfl
  have ho : (runE env).outcome = Outcome.success "" := by
    simp [runE, hm, hd, scanE, hfn, hfp, hdecode]
  have hE : E env = some "" := (E_eq_some_iff env "").mpr ho
  have hmain := runMain_of_falsy env (by rw [hE]; rfl)
  refine ⟨hE, (success_log env "" ho).1, ?_, ?_⟩
  · rw [hmain]
  · rw [hmain]
    simp

/-- C9 witness: buffer = marker followed directly by `"`. -/
theorem empty_credential_edge_witness :
    E envEmptyKey = some "" ∧ ("api key: " ++ "") ∈ (runE envEmptyKey).stdoutLines
    ∧ (runMain envEmptyKey).2 = 1
    ∧ "failed to extract api key" ∈ (runMain envEmptyKey).1.stderrLines :=
  empty_credential_edge envEmptyKey [0] (G ++ [34]) 0 rfl rfl
    (by decide) (by decide) (by decide)

/-- C10: when the bytes strictly between marker-end and the first subsequent
`"` byte are not valid UTF-8, the decoding exception does not propagate: the
defensive catch-all absorbs it (UnclassifiedError), its diagnostic goes to
stderr, no credential is produced and the process exits 1. -/
theorem invalid_utf8_absorbed (env : Env) (m v : List Nat) (n p : Nat)
    (hm : env.fetched = some m) (hd : env.dec m = some v)
    (hocc : G <+: v.drop n) (hfirst : ∀ j < n, ¬ G <+: v.drop j)
    (hple : n + G.length ≤ p) (hpq : v[p]? = some 34)
    (hpfirst : ∀ j < p, n + G.length ≤ j → v[j]? ≠ some 34)
    (hbad : utf8Decode (pySlice v (n + G.length) p) = none) :
    (runE env).outcome = Outcome.unclassifiedError ∧ E env = none
    ∧ ("error: " ++ env.decodeErrMsg) ∈ (runE env).stderrLines
    ∧ (runMain env).2 = 1 := by
  have hfn : bytesFindFrom v G 0 = some n := first_marker_find v n hocc hfirst
  have hfp : bytesFindFrom v [34] (n + G.length) = some p :=
    first_quote_find v _ p hple hpq hpfirst
  have ho : (runE env).outcome = Outcome.unclassifiedError := by
    simp [runE, hm, hd, scanE, hfn, hfp, hbad]
  have hE : E env = none := by
    rw [E_eq_none_iff]
    intro q
    rw [ho]
    simp
  refine ⟨ho, hE, by simp [runE, hm, hd, scanE, hfn, hfp, hbad], ?_⟩
  rw [runMain_of_falsy env (by rw [hE]; rfl)]

/-- C10 witness: the byte `0xFF` between the delimiters is invalid UTF-8. -/
theorem invalid_utf8_absorbed_witness :
    (runE envBadUtf8).outcome = Outcome.unclassifiedError ∧ E envBadUtf8 = none
    ∧ ("error: " ++ envBadUtf8.decodeErrMsg) ∈ (runE envBadUtf8).stderrLines
    ∧ (runMain envBadUtf8).2 = 1 :=
  invalid_utf8_absorbed envBadUtf8 [0] (G ++ [255, 34]) 0 17 rfl rfl
    (by decide) (by decide) (by decide) (by decide) (by decide) (by decide)

/-- C2 counterexample: a run in which `extract()` succeeds — the credential
(the empty string) is produced and printed to stdout — yet the exit code is 1
and the failure diagnostic is printed, refuting "on success the exit code is
0" as well as "on any failure no credential is produced". -/
theorem exit_code_claim_counterexample :
    E envEmptyKey = some "" ∧ ("api key: " ++ "") ∈ (runE envEmptyKey).stdoutLines
    ∧ (runMain envEmptyKey).2 = 1
    ∧ "failed to extract api key" ∈ (runMain envEmptyKey).1.stderrLines := by
  exact ⟨by decide, by decide, by decide, by decide⟩

/-- C2 amended: when `extract()` returns a non-empty credential the exit code
is 0, the credential line is on stdout and stderr is empty; when it returns no
credential the exit code is 1 with the diagnostic on stderr; and when it
returns the empty credential, the credential line is printed to stdout yet the
process still prints the failure diagnostic and exits 1. -/
theorem exit_code_amended (env : Env) (c : String) :
    (E env = some c → c ≠ "" →
        (runMain env).2 = 0
        ∧ ("api key: " ++ c) ∈ (runMain env).1.stdoutLines
        ∧ (runMain env).1.stderrLines = [])
    ∧ (E env = none →
        (runMain env).2 = 1
        ∧ "failed to extract api key" ∈ (runMain env).1.stderrLines
        ∧ (runMain env).1.stderrLines ≠ [])
    ∧ (E env = some "" →
        (runMain env).2 = 1
        ∧ ("api key: " ++ "") ∈ (runMain env).1.stdoutLines
        ∧ "failed to extract api key" ∈ (runMain env).1.stderrLines) := by
  refine ⟨?_, ?_, ?_⟩
  · intro hE hc
    have ht : truthy (E env) = true := by
      rw [hE]
      simp [truthy, hc]
    have ho : (runE env).outcome = Outcome.success c := (E_eq_some_iff env c).mp hE
    have hlog := success_log env c ho
    rw [runMain_of_truthy env ht]
    exact ⟨rfl, hlog.1, hlog.2⟩
  · intro hE
    rw [runMain_of_falsy env (by rw [hE]; rfl)]
    exact ⟨rfl, by simp, by simp⟩
  · intro hE
    have ho : (runE env).outcome = Outcome.success "" := (E_eq_some_iff env "").mp hE
    have hlog := success_log env "" ho
    rw [runMain_of_falsy env (by rw [hE]; rfl)]
    exact ⟨rfl, hlog.1, by simp⟩

/-- C2 witness: all three cases of the amended claim at concrete runs. -/
theorem exit_code_amended_witness :
    ((runMain envScenarioA).2 = 0
      ∧ ("api key: " ++ "abc123XYZ") ∈ (runMain envScenarioA).1.stdoutLines
      ∧ (runMain envScenarioA).1.stderrLines = [])
    ∧ ((runMain envNetFailA).2 = 1
      ∧ "failed to extract api key" ∈ (runMain envNetFailA).1.stderrLines
      ∧ (runMain envNetFailA).1.stderrLines ≠ [])
    ∧ ((runMain envEmptyKey).2 = 1
      ∧ ("api key: " ++ "") ∈ (runMain envEmptyKey).1.stdoutLines
      ∧ "failed to extract api key" ∈ (runMain envEmptyKey).1.stderrLines) :=
  ⟨(exit_code_amended envScenarioA "abc123XYZ").1 (by decide) (by decide),
   (exit_code_amended envNetFailA "").2.1 (by decide),
   (exit_code_amended envEmptyKey "").2.2 (by decide)⟩

end CurseforgeKeyExtractor
